import Mathlib

/-!
Shallow embedding of the arpc repository (JSON-RPC 2.0 protocol layer,
msgpack serializer module, server message pipeline) and proofs about the
spec claims.  Python dynamic values are modelled by `PyVal`, envelopes by
insertion-ordered association lists, exceptions by `PyExc`, and fallible
Python functions by `Except PyExc`.
-/

namespace ARPC

/-- Python values as they occur in protocol envelopes.  Python `None` is
`PyVal.null`; `bool` is kept distinct from `int` because Python does so,
but `isinstance(x, int)` is true for bools (bool is a subclass of int),
which `isIntLike` reflects. -/
inductive PyVal where
  | null
  | bool (b : Bool)
  | int (n : Int)
  | str (s : String)
  | list (xs : List PyVal)
  | dict (xs : List (String × PyVal))

/-- Python truthiness of a value (`if x:`). -/
def PyVal.truthy : PyVal → Bool
  | .null => false
  | .bool b => b
  | .int n => n != 0
  | .str s => s != ""
  | .list xs => !xs.isEmpty
  | .dict xs => !xs.isEmpty

/-- `isinstance(x, int)` in Python: true for ints and for bools. -/
def PyVal.isIntLike : PyVal → Bool
  | .int _ => true
  | .bool _ => true
  | _ => false

/-- `isinstance(x, str)`. -/
def PyVal.isStr : PyVal → Bool
  | .str _ => true
  | _ => false

/-- `isinstance(x, list)`. -/
def PyVal.isList : PyVal → Bool
  | .list _ => true
  | _ => false

/-- `x is None` / `x == None`. -/
def PyVal.isNull : PyVal → Bool
  | .null => true
  | _ => false

/-- Python `str()` on the message values that actually occur in this
code (strings, ints, bools, None); composite reprs are never needed by
any envelope the claims touch. -/
def PyVal.pyStr : PyVal → String
  | .str s => s
  | .null => "None"
  | .bool b => cond b "True" "False"
  | .int n => toString n
  | .list _ => "<list>"
  | .dict _ => "<dict>"

/-- An envelope or Python dict: insertion-ordered association list. -/
abbrev Env := List (String × PyVal)

/-- `d.get(k)` as an `Option`. -/
def dlookup : Env → String → Option PyVal
  | [], _ => Option.none
  | (k, v) :: rest, key => if k == key then some v else dlookup rest key

/-- `d.get(k)`: `None` when the key is absent. -/
def dget (d : Env) (k : String) : PyVal := (dlookup d k).getD PyVal.null

/-- `k in d`. -/
def hasKey (d : Env) (k : String) : Bool := (dlookup d k).isSome

/-- `d[k] = v`: replace the existing entry in place, else append. -/
def dinsert : Env → String → PyVal → Env
  | [], key, v => [(key, v)]
  | (k, w) :: rest, key, v =>
      if k == key then (k, v) :: rest else (k, w) :: dinsert rest key v

/-- First key of the envelope outside the allowed set, in iteration
order (the loops over `req.keys()` raise on the first such key). -/
def firstBadKey (allowed : List String) (d : Env) : Option String :=
  (d.map Prod.fst).find? (fun k => !(allowed.contains k))

/-- Opaque byte payloads. -/
abbrev Bytes := List Nat

/-- Modelled from the spec: the `Protocol.Error` base class lives in
`arpc/protocols/__init__.py`, which is not under src/; per §3 a
ProtocolError carries an integer code, a string message and optional
data (null when not supplied). -/
structure ProtocolError where
  code : Int
  message : String
  data : PyVal

/-- `ParseError` with its default message (source line 102). -/
def ParseErrorE : ProtocolError := ⟨-32700, "Parse error.", PyVal.null⟩

/-- `InvalidRequestError` (source line 106); callers may override the
default message "Invalid Request". -/
def InvalidRequestE (m : String) : ProtocolError := ⟨-32600, m, PyVal.null⟩

/-- `MethodNotFoundError` (source line 110). -/
def MethodNotFoundE : ProtocolError := ⟨-32601, "Method not found", PyVal.null⟩

/-- `InvalidParamsError` (source line 114). -/
def InvalidParamsE (m : String) : ProtocolError := ⟨-32602, m, PyVal.null⟩

/-- `InternalError` with its default message (source line 118). -/
def InternalErrorE : ProtocolError := ⟨-32603, "Internal error", PyVal.null⟩

/-- `InvalidReplyError` (source line 122); default message "Invalid reply". -/
def InvalidReplyE (m : String) : ProtocolError := ⟨-32001, m, PyVal.null⟩

/-- Python exceptions relevant to this code: typed protocol errors,
`NameError` from an unbound module-level name, `KeyError` from
subscripting a missing key, `AttributeError`, and arbitrary exceptions
raised by dispatched methods. -/
inductive PyExc where
  | protocol (e : ProtocolError)
  | nameError (n : String)
  | keyError (k : String)
  | attributeError
  | generic (tag : String)

/-- `isinstance(exc, self.Error)`. -/
def PyExc.isProtocol : PyExc → Bool
  | .protocol _ => true
  | _ => false

/-- `JSONRPCProtocol.Request` (source lines 76-100).  `uid` is a dynamic
value: `create_request` stores `None` or an int, and `parse_request`
stores whatever passed the (buggy) id check. -/
structure Request where
  method : String
  uid : PyVal
  args : Option (List PyVal)
  kwargs : Option Env

/-- `JSONRPCProtocol.SuccessResponse` (source lines 16-27). -/
structure SuccessResponse where
  uid : PyVal
  result : PyVal

/-- `JSONRPCProtocol.ErrorResponse` (source lines 29-74).  Fields follow
the constructor: code, message, uid, data.  `__init__` assigns
`self.data` unconditionally (default `None`), so the attribute always
exists. -/
structure ErrorResponse where
  code : PyVal
  message : PyVal
  uid : PyVal
  data : PyVal

/-- The `ErrorResponse` constructor with its default `data=None`
argument omitted (source line 30). -/
def mkErrorResponseNoData (code message uid : PyVal) : ErrorResponse :=
  ⟨code, message, uid, PyVal.null⟩

/-- Result of `parse_response`: a success or an error response. -/
inductive Response where
  | success (r : SuccessResponse)
  | err (r : ErrorResponse)

/-- Python truthiness of the optional `args` list: `None` and `[]` are
falsy. -/
def argsTruthy : Option (List PyVal) → Bool
  | some (_ :: _) => true
  | _ => false

/-- Python truthiness of the optional `kwargs` dict. -/
def kwargsTruthy : Option Env → Bool
  | some (_ :: _) => true
  | _ => false

/-- Envelope built by `Request.serialize` (source lines 88-100): starts
from the `jsonrpc`/`method` literal, then conditionally assigns
`params` from args, `params` again from kwargs, and `id` when the uid
is not None. -/
def Request.buildEnvelope (r : Request) : Env :=
  let msg : Env := [("jsonrpc", PyVal.str "2.0"), ("method", PyVal.str r.method)]
  let msg := match r.args with
    | some (x :: xs) => dinsert msg "params" (PyVal.list (x :: xs))
    | _ => msg
  let msg := match r.kwargs with
    | some (x :: xs) => dinsert msg "params" (PyVal.dict (x :: xs))
    | _ => msg
  if r.uid.isNull then msg else dinsert msg "id" r.uid

/-- Envelope built inside `SuccessResponse.serialize` (source lines
22-27). -/
def SuccessResponse.buildEnvelope (r : SuccessResponse) : Env :=
  [("jsonrpc", PyVal.str "2.0"), ("id", r.uid), ("result", r.result)]

/-- `SuccessResponse.serialize` (source lines 22-27): the body evaluates
`self._serializer.serialize(...)` as a bare expression statement and
falls off the end, so on success the method returns Python `None`
instead of the encoded bytes; a serializer exception propagates. -/
def SuccessResponse.serializeWith {β : Type} (enc : Env → Except PyExc β)
    (r : SuccessResponse) : Except PyExc (Option β) :=
  (enc r.buildEnvelope).map (fun _ => Option.none)

/-- Envelope built by `ErrorResponse.serialize` (source lines 62-74):
the literal holds `jsonrpc`, `id` and the error object with `code` and
`str(message)`; `hasattr(self, 'data')` is always true because
`__init__` assigns `self.data` unconditionally, so
`msg['error']['data'] = self.data` always runs. -/
def ErrorResponse.buildEnvelope (r : ErrorResponse) : Env :=
  let errObj : Env := [("code", r.code), ("message", PyVal.str r.message.pyStr)]
  let errObj := dinsert errObj "data" r.data
  [("jsonrpc", PyVal.str "2.0"), ("id", r.uid), ("error", PyVal.dict errObj)]

/-- `ErrorResponse.serialize` returns the encoded envelope (it does have
a `return`, unlike `SuccessResponse.serialize`). -/
def ErrorResponse.serializeWith {β : Type} (enc : Env → Except PyExc β)
    (r : ErrorResponse) : Except PyExc β :=
  enc r.buildEnvelope

/-- The error object stored under "error" in an envelope, when it is a
dict. -/
def errorObjOf (env : Env) : Env :=
  match dlookup env "error" with
  | some (PyVal.dict d) => d
  | _ => []

/-- Mutable state of a `JSONRPCProtocol` instance: the correlation
counter (source lines 126-132, default start value 0). -/
structure ProtoState where
  counter : Int

/-- `_get_uid` (source lines 134-136): increments the counter and
returns its new value. -/
def getUid (st : ProtoState) : ProtoState × Int :=
  (⟨st.counter + 1⟩, st.counter + 1)

/-- `_ALLOWED_REQUEST_KEYS` (source line 14, sorted). -/
def ALLOWED_REQUEST_KEYS : List String := ["id", "jsonrpc", "method", "params"]

/-- `_ALLOWED_REPLY_KEYS` (source line 13, sorted). -/
def ALLOWED_REPLY_KEYS : List String := ["error", "id", "jsonrpc", "result"]

/-- `value == "2.0"` for the `jsonrpc` field (`JSON_RPC_VERSION`); in
Python only the string "2.0" compares equal, and a missing key yields
`None`, which does not. -/
def isVersion : PyVal → Bool
  | .str s => s == "2.0"
  | _ => false

/-- `create_request` (source lines 138-146): rejects truthy args
together with truthy kwargs, draws a fresh uid unless one_way, and
builds the Request (whose own args/kwargs re-check cannot fire here). -/
def create_request (st : ProtoState) (method : String)
    (args : Option (List PyVal)) (kwargs : Option Env) (one_way : Bool) :
    ProtoState × Except PyExc Request :=
  if argsTruthy args && kwargsTruthy kwargs then
    (st, Except.error (PyExc.protocol
      (InvalidRequestE "Does not support args and kwargs at the same time.")))
  else if one_way then
    (st, Except.ok ⟨method, PyVal.null, args, kwargs⟩)
  else
    let p := getUid st
    (p.1, Except.ok ⟨method, PyVal.int p.2, args, kwargs⟩)

/-- `create_response` (source lines 148-149): copies `request.uid` into
the success response. -/
def create_response (request : Request) (reply : PyVal) : SuccessResponse :=
  ⟨request.uid, reply⟩

/-- `create_error_response` (source lines 151-155).  The conditional on
line 153 reads `InternalError() if isinstance(exc, self.Error) else
InternalError()`: both branches produce the generic InternalError, so
the code/message/data of a typed protocol error are never preserved.
The uid is `request.uid` when a request was given, else None. -/
def create_error_response (exc : PyExc) (request : Option Request) : ErrorResponse :=
  let e := if exc.isProtocol then InternalErrorE else InternalErrorE
  let uid := match request with
    | some r => r.uid
    | Option.none => PyVal.null
  ⟨PyVal.int e.code, PyVal.str e.message, uid, e.data⟩

/-- `json.loads(data)` as referenced on source line 159: the module
imports only `typing`, `Protocol` and `Serializer`, never `json`, so
evaluating the name `json` raises NameError on every call. -/
def jsonLoads (data : Bytes) : Except PyExc Env :=
  Except.error (PyExc.nameError "json")

/-- Body of `parse_request` after decoding (source lines 163-189):
key whitelist, jsonrpc version, `req['method']` (KeyError when absent)
and its str check, the truthiness-guarded id check, and the params
shape dispatch. -/
def parse_requestBody (req : Env) : Except PyExc Request :=
  match firstBadKey ALLOWED_REQUEST_KEYS req with
  | some k => Except.error (PyExc.protocol (InvalidRequestE ("Key not allowed: " ++ k)))
  | Option.none =>
    if isVersion (dget req "jsonrpc") then
      match dlookup req "method" with
      | Option.none => Except.error (PyExc.keyError "method")
      | some m =>
        match m with
        | PyVal.str name =>
          let uid := dget req "id"
          if uid.truthy && !uid.isIntLike then
            Except.error (PyExc.protocol (InvalidRequestE "id must be int"))
          else
            match dget req "params" with
            | PyVal.null => Except.ok ⟨name, uid, Option.none, Option.none⟩
            | PyVal.list xs => Except.ok ⟨name, uid, some xs, Option.none⟩
            | PyVal.dict xs => Except.ok ⟨name, uid, Option.none, some xs⟩
            | _ => Except.error (PyExc.protocol (InvalidParamsE "params must be list or dict"))
        | _ => Except.error (PyExc.protocol (InvalidRequestE "method must be str"))
    else
      Except.error (PyExc.protocol (InvalidRequestE "Wrong or missing jsonrpc version"))

/-- `parse_request` (source lines 157-189): `json.loads` raises
NameError (the name is unbound), the surrounding try/except catches
every exception and raises ParseError, so the body after decoding is
unreachable. -/
def parse_request (data : Bytes) : Except PyExc Request :=
  match jsonLoads data with
  | Except.error _ => Except.error (PyExc.protocol ParseErrorE)
  | Except.ok req => parse_requestBody req

/-- Body of `parse_response` after decoding (source lines 197-226):
key whitelist, jsonrpc version, the truthiness-guarded id check, the
exactly-one-of result/error check, then the success or error branch.
On line 220 the source reads `error.get('code')` a second time and
binds it as the message, so the message check inspects the code value
and the message string itself is never examined. -/
def parse_responseBody (rep : Env) : Except PyExc Response :=
  match firstBadKey ALLOWED_REPLY_KEYS rep with
  | some k => Except.error (PyExc.protocol (InvalidReplyE ("Key not allowed: " ++ k)))
  | Option.none =>
    if isVersion (dget rep "jsonrpc") then
      let uid := dget rep "id"
      if uid.truthy && !uid.isIntLike then
        Except.error (PyExc.protocol (InvalidReplyE "id must be int"))
      else if hasKey rep "error" == hasKey rep "result" then
        Except.error (PyExc.protocol
          (InvalidReplyE "Reply must contain exactly one of result and error."))
      else if hasKey rep "result" then
        Except.ok (Response.success ⟨uid, dget rep "result"⟩)
      else
        match dget rep "error" with
        | PyVal.dict err =>
          let code := dget err "code"
          if !code.isIntLike then
            Except.error (PyExc.protocol (InvalidReplyE "error.code must be int"))
          else
            let message := dget err "code"
            if message.truthy && !message.isStr then
              Except.error (PyExc.protocol (InvalidReplyE "error.message must be str"))
            else
              Except.ok (Response.err ⟨code, message, uid, dget err "data"⟩)
        | _ => Except.error PyExc.attributeError
    else
      Except.error (PyExc.protocol (InvalidReplyE "Wrong or missing jsonrpc version"))

/-- `parse_response` (source lines 191-226), parameterized by the
serializer's deserialize (the protocol object is generic over the
serializer); a decode failure is converted to the default
InvalidReplyError. -/
def parse_responseWith (deser : Bytes → Except PyExc Env) (data : Bytes) :
    Except PyExc Response :=
  match deser data with
  | Except.error _ => Except.error (PyExc.protocol (InvalidReplyE "Invalid reply"))
  | Except.ok rep => parse_responseBody rep

namespace MsgpackSerializer

/-- `MsgpackSerializer.serialize` (src/arpc/serializers/msgpack.py lines
19-20): the body calls `pickle.dumps`, but the module only imports
`msgpack` and never binds the name `pickle`, so every call raises
NameError before anything is encoded. -/
def serialize (message : Env) : Except PyExc Bytes :=
  Except.error (PyExc.nameError "pickle")

/-- `MsgpackSerializer.deserialize` (lines 22-23): calls `pickle.loads`
with the name `pickle` unbound, raising NameError on every call. -/
def deserialize (data : Bytes) : Except PyExc Env :=
  Except.error (PyExc.nameError "pickle")

end MsgpackSerializer

/-- `Server.handler` (src/arpc/server.py lines 74-92), with the
protocol's `parse_request` and the dispatcher's `dispatch` as
parameters (the Server is generic over both; the dispatcher module is
not under src/ — modelled from the spec, §4.3 step 4 and §6, as
returning a response object for a two-way request, None for a one-way
request, or raising).  A parse failure yields
`create_error_response(e, None)`; a dispatch failure yields
`create_error_response(e, request)` with no check of whether the
request was one-way; the reply is returned iff the response is not
None.  (The subsequent `response.serialize()` encoding step is the
serializer's concern and not part of the reply/no-reply decision.) -/
def handler (parse : Bytes → Except PyExc Request)
    (dispatch : Request → Except PyExc (Option Response))
    (message : Bytes) : Option Response :=
  match parse message with
  | Except.error e => some (Response.err (create_error_response e Option.none))
  | Except.ok request =>
    match dispatch request with
    | Except.error e => some (Response.err (create_error_response e (some request)))
    | Except.ok response => response

/-- Arguments of one `create_request` call in a sequence of successive
calls on the same protocol instance. -/
structure CallSpec where
  method : String
  args : Option (List PyVal)
  kwargs : Option Env

/-- Results of running successive `create_request` calls with
`one_way=false`, threading the instance state through. -/
def createSeq (st : ProtoState) : List CallSpec → List (Except PyExc Request)
  | [] => []
  | c :: rest =>
    let p := create_request st c.method c.args c.kwargs false
    p.2 :: createSeq p.1 rest

/-- Final instance state after the same sequence of calls. -/
def createSeqSt (st : ProtoState) : List CallSpec → ProtoState
  | [] => st
  | c :: rest => createSeqSt (create_request st c.method c.args c.kwargs false).1 rest

/-- The integer uids of the requests actually returned. -/
def uidInts (rs : List (Except PyExc Request)) : List Int :=
  rs.filterMap (fun r => match r with
    | Except.ok q => match q.uid with
      | PyVal.int n => some n
      | _ => Option.none
    | Except.error _ => Option.none)

/-- Number of calls in the sequence that returned a request. -/
def numOk (rs : List (Except PyExc Request)) : Nat :=
  rs.countP (fun r => match r with
    | Except.ok _ => true
    | Except.error _ => false)

lemma create_request_fail (st : ProtoState) (m : String) (a : Option (List PyVal))
    (k : Option Env) (h : (argsTruthy a && kwargsTruthy k) = true) :
    create_request st m a k false =
      (st, Except.error (PyExc.protocol
        (InvalidRequestE "Does not support args and kwargs at the same time."))) := by
  simp [create_request, h]

lemma create_request_ok (st : ProtoState) (m : String) (a : Option (List PyVal))
    (k : Option Env) (h : (argsTruthy a && kwargsTruthy k) = false) :
    create_request st m a k false =
      (⟨st.counter + 1⟩, Except.ok ⟨m, PyVal.int (st.counter + 1), a, k⟩) := by
  simp [create_request, h, getUid]

lemma uidInts_lb : ∀ (calls : List CallSpec) (st : ProtoState),
    ∀ x ∈ uidInts (createSeq st calls), st.counter < x := by
  intro calls
  induction calls with
  | nil => intro st x hx; simp [createSeq, uidInts] at hx
  | cons c rest ih =>
    intro st x hx
    by_cases h : (argsTruthy c.args && kwargsTruthy c.kwargs) = true
    · rw [createSeq, create_request_fail st c.method c.args c.kwargs h] at hx
      simp [uidInts] at hx
      exact ih st x (by simpa [uidInts] using hx)
    · rw [createSeq, create_request_ok st c.method c.args c.kwargs
        (by simpa using h)] at hx
      simp [uidInts] at hx
      rcases hx with hx | hx
      · omega
      · have := ih ⟨st.counter + 1⟩ x (by simpa [uidInts] using hx)
        simp at this; omega

lemma uidInts_pairwise : ∀ (calls : List CallSpec) (st : ProtoState),
    List.Pairwise (· < ·) (uidInts (createSeq st calls)) := by
  intro calls
  induction calls with
  | nil => intro st; simp [createSeq, uidInts]
  | cons c rest ih =>
    intro st
    by_cases h : (argsTruthy c.args && kwargsTruthy c.kwargs) = true
    · rw [createSeq, create_request_fail st c.method c.args c.kwargs h]
      simpa [uidInts] using ih st
    · rw [createSeq, create_request_ok st c.method c.args c.kwargs
        (by simpa using h)]
      simp only [uidInts, List.filterMap_cons]
      refine List.Pairwise.cons ?_ (ih ⟨st.counter + 1⟩)
      intro x hx
      have := uidInts_lb rest ⟨st.counter + 1⟩ x hx
      simp at this; omega

lemma createSeqSt_counter : ∀ (calls : List CallSpec) (st : ProtoState),
    (createSeqSt st calls).counter = st.counter + numOk (createSeq st calls) := by
  intro calls
  induction calls with
  | nil => intro st; simp [createSeqSt, createSeq, numOk]
  | cons c rest ih =>
    intro st
    by_cases h : (argsTruthy c.args && kwargsTruthy c.kwargs) = true
    · rw [createSeqSt, createSeq, create_request_fail st c.method c.args c.kwargs h]
      simp [numOk, ih st]
    · rw [createSeqSt, createSeq, create_request_ok st c.method c.args c.kwargs
        (by simpa using h)]
      simp [numOk] at ih ⊢
      rw [ih ⟨st.counter + 1⟩]
      simp; omega

/-- C1, counterexample: for the typed protocol error ParseError (code
-32700), `create_error_response` does not preserve the code; it returns
the generic InternalError code -32603. -/
theorem c1_counterexample :
    (create_error_response (PyExc.protocol ParseErrorE) Option.none).code
      ≠ PyVal.int ParseErrorE.code := by
  simp [create_error_response, InternalErrorE, ParseErrorE]

/-- C1, amended: `create_error_response` always returns an
ErrorResponse with the generic InternalError code -32603, message
"Internal error" and null data, for every exception, typed protocol
error or not; the uid is `request.uid` when a request is supplied and
null otherwise. -/
theorem c1_amended_always_internal_error (exc : PyExc) (request : Option Request) :
    create_error_response exc request =
      ⟨PyVal.int (-32603), PyVal.str "Internal error",
        (match request with | some r => r.uid | Option.none => PyVal.null),
        PyVal.null⟩ := by
  cases exc <;> cases request <;> rfl

/-- C2: the round-trip law fails because `parse_request` raises
ParseError on every input: the body evaluates the unbound name `json`,
the resulting NameError is caught by the try/except, and ParseError is
raised, so the created request's method, args/kwargs and uid are never
recovered. -/
theorem c2_parse_request_always_parse_error (data : Bytes) :
    parse_request data = Except.error (PyExc.protocol ParseErrorE) := rfl

/-- C3: when a message parses as a one-way request (uid null) and
dispatch raises, the handler still produces a reply: it wraps the
exception via `create_error_response` and returns it, because the
except branch never checks whether the request was one-way. -/
theorem c3_one_way_dispatch_failure_still_replies
    (parse : Bytes → Except PyExc Request)
    (dispatch : Request → Except PyExc (Option Response))
    (message : Bytes) (req : Request) (e : PyExc)
    (hparse : parse message = Except.ok req)
    (hone : req.uid = PyVal.null)
    (hfail : dispatch req = Except.error e) :
    handler parse dispatch message
      = some (Response.err (create_error_response e (some req))) := by
  simp [handler, hparse, hfail]

/-- The one-way request "ping" (no uid). -/
def pingReq : Request := ⟨"ping", PyVal.null, Option.none, Option.none⟩

theorem c3_witness :
    handler (fun _ => Except.ok pingReq)
        (fun _ => Except.error (PyExc.generic "boom")) []
      = some (Response.err (create_error_response (PyExc.generic "boom") (some pingReq))) :=
  c3_one_way_dispatch_failure_still_replies _ _ [] pingReq (PyExc.generic "boom") rfl rfl rfl

/-- The protocol state of a fresh instance (counter starts at 0). -/
def freshState : ProtoState := ⟨0⟩

/-- `create_request("add", args=[2,3])` on a fresh instance. -/
def addCall : ProtoState × Except PyExc Request :=
  create_request freshState "add" (some [PyVal.int 2, PyVal.int 3]) Option.none false

/-- The request that call returns: method "add", uid 1, args [2,3]. -/
def addReq : Request := ⟨"add", PyVal.int 1, some [PyVal.int 2, PyVal.int 3], Option.none⟩

/-- A serializer encode that always succeeds, returning the envelope
itself as the encoding. -/
def okEnc : Env → Except PyExc Env := Except.ok

/-- C4: `create_response` does copy `request.uid`, and the envelope it
builds is exactly the claimed one, but `SuccessResponse.serialize`
returns Python None (it lacks a return statement), not the encoding of
that envelope — shown here with an encoder that succeeds. -/
theorem c4_success_serialize_returns_none :
    addCall.2 = Except.ok addReq ∧
    (create_response addReq (PyVal.int 5)).uid = PyVal.int 1 ∧
    (create_response addReq (PyVal.int 5)).buildEnvelope
      = [("jsonrpc", PyVal.str "2.0"), ("id", PyVal.int 1), ("result", PyVal.int 5)] ∧
    (create_response addReq (PyVal.int 5)).serializeWith okEnc
      = Except.ok Option.none :=
  ⟨rfl, rfl, rfl, rfl⟩

/-- A well-formed error reply envelope with code -32601 and message
"Method not found". -/
def c5Envelope : Env :=
  [("jsonrpc", PyVal.str "2.0"), ("id", PyVal.int 7),
   ("error", PyVal.dict
     [("code", PyVal.int (-32601)), ("message", PyVal.str "Method not found")])]

/-- An error reply whose code is 0 and whose message is the non-string
42. -/
def c5ZeroCodeEnvelope : Env :=
  [("jsonrpc", PyVal.str "2.0"), ("id", PyVal.int 7),
   ("error", PyVal.dict [("code", PyVal.int 0), ("message", PyVal.int 42)])]

/-- C5: `parse_response` binds the message to `error.get('code')`
(source line 220), so a well-formed error reply with a nonzero integer
code is rejected with InvalidReply instead of returning its
code/message/data, and an error object whose message is not a string is
accepted when its code is 0 (with the returned message equal to the
code). -/
theorem c5_error_reply_message_check_reads_code :
    parse_responseBody c5Envelope
      = Except.error (PyExc.protocol (InvalidReplyE "error.message must be str")) ∧
    parse_responseBody c5ZeroCodeEnvelope
      = Except.ok (Response.err ⟨PyVal.int 0, PyVal.int 0, PyVal.int 7, PyVal.null⟩) :=
  ⟨rfl, rfl⟩

/-- A representative protocol envelope. -/
def c6Envelope : Env :=
  [("jsonrpc", PyVal.str "2.0"), ("id", PyVal.int 1), ("result", PyVal.int 5)]

/-- C6: the codec never round-trips anything: both `serialize` and
`deserialize` of MsgpackSerializer call the unbound name `pickle`
(the module imports only `msgpack`), so every call raises NameError. -/
theorem c6_msgpack_codec_never_round_trips :
    MsgpackSerializer.serialize c6Envelope = Except.error (PyExc.nameError "pickle") ∧
    ∀ b : Bytes, MsgpackSerializer.deserialize b = Except.error (PyExc.nameError "pickle") :=
  ⟨rfl, fun _ => rfl⟩

/-- A reply envelope whose id is the falsy non-integer "" and which is
otherwise a valid success reply. -/
def c7Envelope : Env :=
  [("jsonrpc", PyVal.str "2.0"), ("id", PyVal.str ""), ("result", PyVal.int 1)]

/-- C7, counterexample: an envelope whose id is present and not an
integer (the falsy string "") is not rejected: `parse_response` accepts
it and returns a SuccessResponse whose uid is that string, because the
id check is guarded by Python truthiness. -/
theorem c7_counterexample :
    parse_responseBody c7Envelope
      = Except.ok (Response.success ⟨PyVal.str "", PyVal.int 1⟩) := rfl

/-- C7, amended: in `parse_response`, an id that is present, truthy and
not of integer type (booleans counting as integers) is rejected with
InvalidReply; falsy ids and boolean ids pass the check.  In
`parse_request` the id check is unreachable: every input is rejected
with ParseError (the unbound `json` reference), never InvalidRequest. -/
theorem c7_amended_truthy_nonint_ids_rejected :
    (∀ rep : Env,
        firstBadKey ALLOWED_REPLY_KEYS rep = Option.none →
        isVersion (dget rep "jsonrpc") = true →
        (dget rep "id").truthy = true →
        (dget rep "id").isIntLike = false →
        parse_responseBody rep
          = Except.error (PyExc.protocol (InvalidReplyE "id must be int"))) ∧
    (∀ data : Bytes, parse_request data = Except.error (PyExc.protocol ParseErrorE)) := by
  constructor
  · intro rep hk hv ht hi
    simp [parse_responseBody, hk, hv, ht, hi]
  · intro _; rfl

theorem c7_witness :
    parse_responseBody
        [("jsonrpc", PyVal.str "2.0"), ("id", PyVal.str "x"), ("result", PyVal.int 1)]
      = Except.error (PyExc.protocol (InvalidReplyE "id must be int")) ∧
    parse_request [] = Except.error (PyExc.protocol ParseErrorE) :=
  ⟨c7_amended_truthy_nonint_ids_rejected.1 _ rfl rfl rfl rfl,
   c7_amended_truthy_nonint_ids_rejected.2 []⟩

/-- C8: a reply envelope with only allowed keys and the correct jsonrpc
version that contains both of `result` and `error`, or neither, is
always rejected with an InvalidReply error (either at the id check or
at the exactly-one-of check, both of which raise InvalidReply). -/
theorem c8_result_error_exactly_one (rep : Env)
    (hk : firstBadKey ALLOWED_REPLY_KEYS rep = Option.none)
    (hv : isVersion (dget rep "jsonrpc") = true)
    (hboth : hasKey rep "error" = hasKey rep "result") :
    ∃ m : String, parse_responseBody rep
      = Except.error (PyExc.protocol (InvalidReplyE m)) := by
  by_cases hid : ((dget rep "id").truthy && !(dget rep "id").isIntLike) = true
  · exact ⟨"id must be int", by simp [parse_responseBody, hk, hv, hid]⟩
  · refine ⟨"Reply must contain exactly one of result and error.", ?_⟩
    simp only [Bool.not_eq_true] at hid
    simp [parse_responseBody, hk, hv, hid, hboth]

theorem c8_witness :
    ∃ m : String, parse_responseBody [("jsonrpc", PyVal.str "2.0")]
      = Except.error (PyExc.protocol (InvalidReplyE m)) :=
  c8_result_error_exactly_one [("jsonrpc", PyVal.str "2.0")] rfl rfl rfl

/-- C9: on one protocol instance, across any sequence of successive
`create_request` calls with `one_way=false`, the returned uids are
strictly increasing (hence without duplicates), and the counter is
incremented exactly once per request actually created (calls rejected
for mixing args and kwargs leave it untouched), never reset. -/
theorem c9_uids_strictly_increasing (st : ProtoState) (calls : List CallSpec) :
    List.Pairwise (· < ·) (uidInts (createSeq st calls)) ∧
    (createSeqSt st calls).counter = st.counter + numOk (createSeq st calls) :=
  ⟨uidInts_pairwise calls st, createSeqSt_counter calls st⟩

/-- C10: for every ErrorResponse, with or without a supplied data
value, the serialized envelope always contains the `id` member (whose
value is the uid, null when absent) and its error object always
contains the `data` member (null when no data was supplied, since the
constructor defaults data to None and always sets the attribute). -/
theorem c10_error_envelope_always_has_data_and_id (code message uid d : PyVal) :
    dlookup (ErrorResponse.buildEnvelope ⟨code, message, uid, d⟩) "id" = some uid ∧
    dlookup (errorObjOf (ErrorResponse.buildEnvelope ⟨code, message, uid, d⟩)) "data"
      = some d ∧
    (mkErrorResponseNoData code message uid).data = PyVal.null ∧
    dlookup (errorObjOf
        (ErrorResponse.buildEnvelope (mkErrorResponseNoData code message uid))) "data"
      = some PyVal.null :=
  ⟨rfl, rfl, rfl, rfl⟩

end ARPC
